import Mathlib

/-!
Verification of the supervisor conversation state machine of the resume-agent
repository (backend/app/agents/supervisor_agent.py, backend/app/services/
session_manager.py, backend/app/services/memory_storage.py and
backend/app/api/supervisor.py), as a shallow embedding in Lean.

External collaborator calls (LLM classifier, CV extractor, job analyzer,
company research, writer agent) are modelled by outcome parameters: each
Python call site that can raise or return data becomes an argument of the
embedded handler, one constructor per syntactic outcome of the call.
Pure Python string logic (lowercasing, substring tests, strip, split,
message-list construction) is embedded directly.
-/

/-! ## Python string primitives -/

/-- ASCII whitespace recognised by Python's `str.strip()` / `str.split()`
(space, tab, newline, carriage return, vertical tab, form feed). -/
def isPySpace (c : Char) : Bool :=
  c == ' ' || c == '\t' || c == '\n' || c == '\r' || c.toNat == 11 || c.toNat == 12

/-- Boolean list prefix test. -/
def isPrefixB : List Char → List Char → Bool
  | [], _ => true
  | _ :: _, [] => false
  | a :: as, b :: bs => a == b && isPrefixB as bs

/-- Boolean list infix test: Python's `pat in s` on strings. -/
def isInfixB (pat : List Char) : List Char → Bool
  | [] => isPrefixB pat []
  | s@(_ :: rest) => isPrefixB pat s || isInfixB pat rest

/-- Python `pat in s` (substring containment). -/
def strContains (s pat : String) : Bool :=
  isInfixB pat.toList s.toList

/-- Python `s.startswith(pat)`. -/
def strStartsWith (s pat : String) : Bool :=
  isPrefixB pat.toList s.toList

/-- Python `s.lower()` (the characters appearing in this program are ASCII). -/
def strLower (s : String) : String :=
  String.mk (s.toList.map Char.toLower)

/-- Python `s.strip(chars)`: drop characters satisfying `p` from both ends. -/
def pyStrip (p : Char → Bool) (s : String) : String :=
  String.mk (((s.toList.dropWhile p).reverse.dropWhile p).reverse)

/-- Python `not s.strip()`: the string is empty or all whitespace. -/
def pyStrBlank (s : String) : Bool :=
  s.toList.all isPySpace

/-- Python truthiness of an optional string (`None` and `""` are falsy). -/
def pyTruthyStr : Option String → Bool
  | none => false
  | some s => !(s == "")

/-- Helper for Python `s.split()`: accumulate the current word. -/
def splitWsAux : List Char → List Char → List (List Char)
  | [], [] => []
  | [], cur => [cur.reverse]
  | c :: rest, cur =>
    if isPySpace c then
      (if cur.isEmpty then splitWsAux rest [] else cur.reverse :: splitWsAux rest [])
    else splitWsAux rest (c :: cur)

/-- Python `s.split()` (split on whitespace runs, no empty words). -/
def pySplitWs (s : String) : List String :=
  (splitWsAux s.toList []).map String.mk

/-! ## Data model: the supervisor state (SupervisorState TypedDict) -/

/-- A `{"role": ..., "content": ...}` message dict. -/
structure Msg where
  role : String
  content : String
deriving DecidableEq, Repr

/-- Python `result["messages"][-1].content` (the handlers only ever apply it
to the non-empty message list returned by a successful writer invocation;
an empty list would raise inside the same `try` and take the error branch). -/
def lastContent (msgs : List Msg) : String :=
  ((msgs.getLast?).map Msg.content).getD ""

/-- The `SupervisorState` TypedDict of supervisor_agent.py.  `writer_messages`
is not declared in the TypedDict but is read and written by the hand-off
handlers via `state.get`/returned dicts, so it is part of the effective state
(the spec's `handoff_transcript`). -/
structure SupervisorState where
  messages : List Msg
  user_input : String
  supervisor_response : String
  current_agent : String
  next_action : String
  intent : String
  cv_data : Option String
  cv_file_path : Option String
  job_data : Option String
  company_data : Option String
  pending_questions : Option String
  clarifications : Option String
  needs_clarification : Bool
  session_stage : String
  conversation_count : Nat
  ready_for_writer : Bool
  writer_messages : List Msg
deriving DecidableEq, Repr

/-- Structured classifier output (`UserIntent` pydantic model); the
`requires_data` field is never read by the routing code and is omitted. -/
structure UserIntent where
  intent : String
  reasoning : String
deriving DecidableEq, Repr

/-! ## External-call outcomes

Each constructor corresponds to one syntactic outcome of the call site in
supervisor_agent.py: a raised exception (`exn`, caught by the handler's
`except` clause), a pre-call input failure, or the returned value. -/

/-- Outcome of `extract_resume_info` + `identify_ambiguities` in
`invoke_cv_agent` (the two tool calls share one `try`): the CV file path
may not exist, either tool may raise, or both succeed. -/
inductive CvOutcome
  | fileNotFound
  | exn (e : String)
  | ok (cv_data questions : String)
deriving DecidableEq, Repr

/-- Outcome of `update_resume_with_clarifications` in `handle_cv_clarification`. -/
inductive ClarifyOutcome
  | exn (e : String)
  | ok (updated_cv : String)
deriving DecidableEq, Repr

/-! ## Handlers (graph nodes) -/

/-- Node `analyze_intent` (`analyze_user_intent`), given a successful
classifier result.  A raised classifier error is handled in `runGraph`. -/
def analyze_user_intent (st : SupervisorState) (r : UserIntent) : SupervisorState :=
  { st with
    intent := r.intent,
    messages := st.messages ++
      [⟨"system", "Intent: " ++ r.intent ++ " - " ++ r.reasoning⟩] }

/-- `cv_path = user_input.strip().strip('"').strip("'")` in `invoke_cv_agent`. -/
def cv_path_of (user_input : String) : String :=
  pyStrip (· == '\'') (pyStrip (· == '"') (pyStrip isPySpace user_input))

/-- Node `invoke_cv` (`invoke_cv_agent`).  `fmtCv` models the pure display
helper `_format_cv_summary` (JSON pretty-printing of the CV record, only
used inside response text). -/
def invoke_cv_agent (fmtCv : String → String) (st : SupervisorState)
    (out : CvOutcome) : SupervisorState :=
  let cv_path := cv_path_of st.user_input
  match out with
  | .fileNotFound =>
    { st with
      supervisor_response := "I couldn't find the CV file at: " ++ cv_path ++
        "\n\nPlease provide a valid file path.",
      next_action := "wait_for_input",
      messages := st.messages ++ [⟨"assistant", "CV file not found: " ++ cv_path⟩] }
  | .exn e =>
    { st with
      supervisor_response := "I encountered an error processing your CV: " ++ e ++
        "\n\nPlease try again or provide a different file.",
      next_action := "wait_for_input",
      messages := st.messages ++ [⟨"assistant", "Error extracting CV: " ++ e⟩] }
  | .ok cv_data questions =>
    if !(strContains (strLower questions) "no questions") then
      let response := "Great! I've extracted your CV information. \n\n" ++
        "I have a few clarifying questions to ensure everything is accurate:\n\n" ++
        questions ++
        "\n\nPlease provide your answers, and I'll update your CV data accordingly."
      { st with
        cv_data := some cv_data,
        cv_file_path := some cv_path,
        pending_questions := some questions,
        needs_clarification := true,
        supervisor_response := response,
        next_action := "wait_for_clarification",
        session_stage := "collecting_cv",
        messages := st.messages ++ [⟨"assistant", response⟩] }
    else
      let response := "Perfect! I've successfully extracted your CV information.\n\n" ++
        "Here's a quick summary:\n" ++ fmtCv cv_data ++
        "\n\nNow, please provide the job posting. You can either:\n" ++
        "- Share a URL to the job posting\n" ++
        "- Paste the job description text directly"
      { st with
        cv_data := some cv_data,
        cv_file_path := some cv_path,
        needs_clarification := false,
        supervisor_response := response,
        next_action := "wait_for_job",
        session_stage := "collecting_job",
        messages := st.messages ++ [⟨"assistant", response⟩] }

/-- Node `handle_clarification` (`handle_cv_clarification`). -/
def handle_cv_clarification (fmtCv : String → String) (st : SupervisorState)
    (out : ClarifyOutcome) : SupervisorState :=
  match out with
  | .ok updated_cv =>
    let response := "Thank you! I've updated your CV with that information.\n\n" ++
      "Here's the updated summary:\n" ++ fmtCv updated_cv ++
      "\n\nNow, please provide the job posting. You can either:\n" ++
      "- Share a URL to the job posting\n" ++
      "- Paste the job description text directly"
    { st with
      cv_data := some updated_cv,
      pending_questions := none,
      needs_clarification := false,
      supervisor_response := response,
      next_action := "wait_for_job",
      session_stage := "collecting_job",
      messages := st.messages ++ [⟨"assistant", response⟩] }
  | .exn e =>
    { st with
      supervisor_response := "I had trouble updating the CV: " ++ e ++
        "\n\nCould you please rephrase your answers?",
      next_action := "wait_for_clarification",
      messages := st.messages ++ [⟨"assistant", "Error updating CV: " ++ e⟩] }

/-- URL extraction in `invoke_job_agent`: `user_input.strip()` if it starts
with `http`, else the first whitespace-separated word starting with `http`. -/
def find_url (user_input : String) : Option String :=
  let url := pyStrip isPySpace user_input
  if strStartsWith url "http" then some url
  else (pySplitWs user_input).find? (fun w => strStartsWith w "http")

/-- Node `invoke_job` (`invoke_job_agent`).  `out` is the outcome of the
`retrieve_web`/`retrieve_text` tool call (whichever the intent selects);
`fmtJob` models `_format_job_summary`. -/
def invoke_job_agent (fmtJob : String → String) (st : SupervisorState)
    (out : Except String String) : SupervisorState :=
  let jobOk := fun (job_data source : String) =>
    let response := "Excellent! I've analyzed the job posting from " ++ source ++
      ".\n\nHere's what I found:\n" ++ fmtJob job_data ++
      "\n\nWould you like me to research the company as well? This can help with your cover letter.\n" ++
      "- Type 'yes' to research the company\n" ++
      "- Type 'no' or 'skip' to proceed directly to tailoring your CV"
    { st with
      job_data := some job_data,
      supervisor_response := response,
      next_action := "ask_company_research",
      session_stage := "collecting_job",
      messages := st.messages ++ [⟨"assistant", response⟩] }
  let jobExn := fun (e : String) =>
    { st with
      supervisor_response := "I had trouble analyzing the job posting: " ++ e ++
        "\n\nPlease try providing it in a different format.",
      next_action := "wait_for_job",
      messages := st.messages ++ [⟨"assistant", "Error extracting job: " ++ e⟩] }
  if st.intent = "provide_job_url" then
    match find_url st.user_input with
    | none =>
      { st with
        supervisor_response :=
          "I couldn't find a valid URL in your message. Please provide the job posting URL.",
        next_action := "wait_for_job",
        messages := st.messages ++ [⟨"assistant", "Invalid URL provided"⟩] }
    | some url =>
      match out with
      | .ok job_data => jobOk job_data ("URL: " ++ url)
      | .error e => jobExn e
  else
    match out with
    | .ok job_data => jobOk job_data "pasted job description"
    | .error e => jobExn e

/-- The affirmative-word test in `handle_company_research_decision`:
`any(word in user_input for word in ["yes", "sure", "okay", "research", "company"])`
over the lowercased input. -/
def research_word_match (user_input : String) : Bool :=
  ["yes", "sure", "okay", "research", "company"].any
    (fun w => strContains (strLower user_input) w)

/-- Node `handle_company_decision` (`handle_company_research_decision`).
`jobJsonParses` models whether `json.loads(state.get("job_data", "{}"))`
succeeds (both branches request the company name, differing only in text). -/
def handle_company_research_decision (st : SupervisorState)
    (jobJsonParses : Bool) : SupervisorState :=
  if research_word_match st.user_input then
    if jobJsonParses then
      { st with
        supervisor_response :=
          "Great! What's the company name? I'll research their values, culture, and recent news.",
        next_action := "wait_for_company_name",
        messages := st.messages ++ [⟨"assistant", "Requesting company name for research"⟩] }
    else
      { st with
        supervisor_response :=
          "What's the company name? I'll research their values, culture, and recent news.",
        next_action := "wait_for_company_name",
        messages := st.messages ++ [⟨"assistant", "Requesting company name"⟩] }
  else
    let response := "No problem! We have everything we need to get started.\n\n" ++
      "I'm now connecting you with our Writer Agent, who will help you:\n" ++
      "1. Analyze how well your CV matches the job requirements\n" ++
      "2. Create a tailored version of your CV\n" ++
      "3. Generate a compelling cover letter\n\n" ++
      "The Writer Agent will show you plans before making changes and ask for your approval at each step.\n\n" ++
      "Let me hand you over now..."
    { st with
      supervisor_response := response,
      next_action := "handoff_to_writer",
      ready_for_writer := true,
      session_stage := "writer_session",
      messages := st.messages ++ [⟨"assistant", response⟩] }

/-- Node `invoke_company_research`.  `out` is the outcome of
`collect_company_info`; `fmtCompany` models `_format_company_summary`. -/
def invoke_company_research (fmtCompany : String → String) (st : SupervisorState)
    (out : Except String String) : SupervisorState :=
  let company_name := pyStrip isPySpace st.user_input
  match out with
  | .ok company_data =>
    let response := "Perfect! I've researched " ++ company_name ++
      ".\n\nHere's what I found:\n" ++ fmtCompany company_data ++
      "\n\nNow I'm connecting you with our Writer Agent, who will help you:\n" ++
      "1. Analyze how well your CV matches the job requirements\n" ++
      "2. Create a tailored version of your CV\n" ++
      "3. Generate a compelling cover letter (incorporating company insights)\n\n" ++
      "The Writer Agent will show you plans before making changes and ask for your approval at each step.\n\n" ++
      "Let me hand you over now..."
    { st with
      company_data := some company_data,
      supervisor_response := response,
      next_action := "handoff_to_writer",
      ready_for_writer := true,
      session_stage := "writer_session",
      messages := st.messages ++ [⟨"assistant", response⟩] }
  | .error e =>
    { st with
      supervisor_response := "I had trouble researching " ++ company_name ++ ": " ++ e ++
        "\n\nWould you like to try a different company name, or skip this step?",
      next_action := "ask_company_research",
      messages := st.messages ++ [⟨"assistant", "Error researching company: " ++ e⟩] }

/-! ## Writer hand-off handlers -/

/-- `format_data` (defined identically inside `handoff_to_writer` and
`continue_writer_session`), restricted to the `str | None` values that the
typed state carries.  `jr` models the `json.loads` → `json.dumps(indent=2)`
reformatting round-trip: `some t` when the data parses as JSON (`t` the
reformatted text, never empty), `none` when parsing fails (the code then
returns the data as-is). -/
def format_data (jr : String → Option String) : Option String → String
  | none => ""
  | some s => if pyStrBlank s then "" else (jr s).getD s

/-- The shared system-context template built from the formatted CV, job and
company strings (`system_context` in `handoff_to_writer` and in
`continue_writer_session`; the two copies in the source are textually
identical). -/
def build_system_context (cv_str job_str company_str : String) : String :=
  let company_context :=
    if company_str = "" then "" else "\n\nCompany Information:\n" ++ company_str
  let data_sections :=
    (if cv_str = "" then [] else ["CV Data (ResumeInfo JSON):\n" ++ cv_str]) ++
    (if job_str = "" then [] else ["Job Requirements (JobRequirements JSON):\n" ++ job_str])
  "You have access to the following structured data for this job application:\n\n" ++
  String.intercalate "\n" data_sections ++ company_context ++
  "\n\nIMPORTANT: This data is available throughout our conversation. When you need to use tools like analyze_cv_job_alignment, generate_tailored_cv_html, or generate_cover_letter_content, use the FULL JSON data provided above, not truncated versions from earlier messages."

/-- The starting transcript `writer_messages` built by `handoff_to_writer`
(system context plus the fixed initial instruction). -/
def handoff_start_transcript (jr : String → Option String)
    (st : SupervisorState) : List Msg :=
  [⟨"system", build_system_context (format_data jr st.cv_data)
      (format_data jr st.job_data) (format_data jr st.company_data)⟩,
   ⟨"user", "I have CV and job data ready for tailoring. Please analyze the alignment and help me create a tailored CV and cover letter.\n\nThe complete CV and job data are available in the system context above."⟩]

/-- Node `handoff_writer` (`handoff_to_writer`).  `tailorStart` models the
writer-agent invocation applied to the starting transcript; `.error` also
covers a failing lazy module load of the writer agent, which sits inside
the same `try`. -/
def handoff_to_writer (jr : String → Option String)
    (tailorStart : List Msg → Except String (List Msg))
    (st : SupervisorState) : SupervisorState :=
  let cv_str := format_data jr st.cv_data
  let job_str := format_data jr st.job_data
  if cv_str = "" && job_str = "" then
    { st with
      supervisor_response :=
        "I need both CV and job data to proceed with tailoring. Please provide your CV and job posting first.",
      next_action := "wait_for_input",
      messages := st.messages ++ [⟨"assistant", "Missing CV or job data for writer handoff"⟩] }
  else
    match tailorStart (handoff_start_transcript jr st) with
    | .ok msgs =>
      let writer_response := lastContent msgs
      { st with
        current_agent := "writer",
        supervisor_response := writer_response,
        next_action := "writer_active",
        messages := st.messages ++
          [⟨"system", "Handed off to Writer Agent"⟩,
           ⟨"assistant", writer_response⟩],
        writer_messages := msgs }
    | .error e =>
      { st with
        supervisor_response := "I encountered an error connecting to the Writer Agent: " ++ e ++
          "\n\nLet me try to help you directly.",
        next_action := "error_fallback",
        messages := st.messages ++ [⟨"assistant", "Error in writer handoff: " ++ e⟩] }

/-- The return-to-supervisor trigger test in `continue_writer_session`:
`any(trigger in user_input.lower() for trigger in return_triggers)` with
`return_triggers = ["back to supervisor", "start over", "new job", "different cv"]`. -/
def return_trigger_match (user_input : String) : Bool :=
  ["back to supervisor", "start over", "new job", "different cv"].any
    (fun t => strContains (strLower user_input) t)

/-- The stored-transcript system-context probe in `continue_writer_session`:
`any(msg.get("role") == "system" and "CV Data (ResumeInfo JSON)" in msg.get("content", "") ...)`. -/
def has_system_context_entry (wm : List Msg) : Bool :=
  wm.any (fun m => m.role == "system" && strContains m.content "CV Data (ResumeInfo JSON)")

/-- The transcript that `continue_writer_session` submits to the writer agent
(after the optional system-context reconstruction and the appended user turn).
`none` models the `NameError` path: when the reconstruction condition holds
but both formatted data strings are empty, the code reads the unbound local
`system_context` and raises (the exception is caught by the handler's
`except`).  Note the reconstruction block prepends the rebuilt system message
TWICE (source lines 661 and 664). -/
def cws_transcript (jr : String → Option String)
    (st : SupervisorState) : Option (List Msg) :=
  let wm := st.writer_messages
  if !has_system_context_entry wm &&
      (pyTruthyStr st.cv_data || pyTruthyStr st.job_data) then
    let cv_str := format_data jr st.cv_data
    let job_str := format_data jr st.job_data
    let company_str := format_data jr st.company_data
    if cv_str = "" && job_str = "" then
      none
    else
      let sys : Msg := ⟨"system", build_system_context cv_str job_str company_str⟩
      some (sys :: sys :: wm ++ [⟨"user", st.user_input⟩])
  else
    some (wm ++ [⟨"user", st.user_input⟩])

/-- The completion-phrase test in `continue_writer_session`:
`any(keyword in writer_response.lower() for keyword in done_keywords)`. -/
def done_keyword_match (writer_response : String) : Bool :=
  ["pdf generated successfully", "application complete", "all done"].any
    (fun k => strContains (strLower writer_response) k)

/-- The closing note appended on completion in `continue_writer_session`. -/
def completion_note : String :=
  "\n\n---\n✅ Great work! Your application materials are ready.\n\nIf you need help with another job application, just let me know!"

/-- The generic `except` branch of `continue_writer_session`. -/
def cws_error (st : SupervisorState) (e : String) : SupervisorState :=
  { st with
    supervisor_response := "I encountered an error: " ++ e ++
      "\n\nLet me reconnect you with the Writer Agent.",
    next_action := "writer_active",
    messages := st.messages ++ [⟨"assistant", "Error in writer session: " ++ e⟩] }

/-- Node `continue_writer` (`continue_writer_session`).  `tailorContinue`
models `writer_agent.invoke` applied to the submitted transcript
(`cws_transcript`); its `.error`, like a `NameError` from the reconstruction
block, is caught by the handler's `except` clause. -/
def continue_writer_session (jr : String → Option String)
    (tailorContinue : List Msg → Except String (List Msg))
    (st : SupervisorState) : SupervisorState :=
  if return_trigger_match st.user_input then
    let response := "I see you'd like to return to the main menu.\n\n" ++
      "Would you like to:\n" ++
      "- Start a new application with a different CV or job?\n" ++
      "- Get help with something else?\n\n" ++
      "Just let me know what you need!"
    { st with
      current_agent := "supervisor",
      supervisor_response := response,
      next_action := "wait_for_input",
      session_stage := "init",
      ready_for_writer := false,
      messages := st.messages ++
        [⟨"system", "Returned from Writer Agent to Supervisor"⟩,
         ⟨"assistant", response⟩],
      writer_messages := [] }
  else
    match cws_transcript jr st with
    | none => cws_error st "name 'system_context' is not defined"
    | some transcript =>
      match tailorContinue transcript with
      | .error e => cws_error st e
      | .ok msgs =>
        let writer_response := lastContent msgs
        if done_keyword_match writer_response then
          let writer_response := writer_response ++ completion_note
          { st with
            supervisor_response := writer_response,
            next_action := "writer_active",
            session_stage := "complete",
            messages := st.messages ++ [⟨"assistant", writer_response⟩],
            writer_messages := msgs }
        else
          { st with
            supervisor_response := writer_response,
            next_action := "writer_active",
            messages := st.messages ++ [⟨"assistant", writer_response⟩],
            writer_messages := msgs }

/-! ## Canned / general responses and missing-data node -/

/-- The greeting text of `generate_supervisor_response`. -/
def greeting_text : String :=
  "Hi there! 👋 I'm your Job Application Assistant!\n\n" ++
  "I'm here to help you create tailored CVs and cover letters that perfectly match job opportunities.\n\n" ++
  "Here's how I can help:\n" ++
  "1. 📄 Extract and analyze your CV\n" ++
  "2. 🔍 Analyze job postings and research companies\n" ++
  "3. ✍️ Tailor your CV to highlight relevant experience\n" ++
  "4. 💼 Write compelling, personalized cover letters\n\n" ++
  "To get started, just share your CV file with me!"

/-- The fixed part of the help text of `generate_supervisor_response`. -/
def help_text_base : String :=
  "I'd be happy to help! Here's what you can do:\n\n" ++
  "**Getting Started:**\n" ++
  "- Share your CV file path (e.g., \"C:/Documents/my_cv.pdf\")\n" ++
  "- Provide a job posting URL or paste the job description\n\n" ++
  "**What I'll Do:**\n" ++
  "1. Extract your CV information (and ask clarifying questions if needed)\n" ++
  "2. Analyze the job requirements\n" ++
  "3. Optionally research the company\n" ++
  "4. Connect you with our Writer Agent to tailor your CV and create a cover letter\n\n" ++
  "**Current Status:**"

/-- The canned answer of `generate_supervisor_response` when both CV and job
data are present on a general question. -/
def both_data_text : String :=
  "Great! I can see that you've already uploaded your CV and job description. \n\n" ++
  "We're all set to start tailoring your application materials! \n\n" ++
  "I can help you:\n" ++
  "1. Analyze how well your CV matches the job requirements\n" ++
  "2. Create a tailored version of your CV that highlights relevant experience\n" ++
  "3. Generate a compelling cover letter\n\n" ++
  "Would you like me to start the analysis and begin tailoring your CV?"

/-- Node `generate_response` (`generate_supervisor_response`).  The greeting
and help branches are pure; the general-question branch either answers from
the canned both-data text (setting `ready_for_writer`) or calls the LLM —
that call is NOT wrapped in `try`, so a raised error escapes the handler
(hence the `Except` result, handled like the classifier in `runGraph`).
The help branch tests `cv_data`/`job_data` by Python truthiness, while the
general branch tests `is not None`. -/
def generate_supervisor_response (st : SupervisorState)
    (llm : Except String String) : Except String SupervisorState :=
  if st.intent = "greeting" then
    .ok { st with
      supervisor_response := greeting_text,
      next_action := "wait_for_input",
      messages := st.messages ++ [⟨"assistant", greeting_text⟩] }
  else if st.intent = "help" then
    let response := help_text_base ++
      (if pyTruthyStr st.cv_data then "\n✅ CV data collected" else "\n⏳ Waiting for CV") ++
      (if pyTruthyStr st.job_data then "\n✅ Job data collected" else "\n⏳ Waiting for job posting") ++
      (if st.ready_for_writer then "\n✅ Ready to start tailoring!" else "") ++
      "\n\nWhat would you like to do next?"
    .ok { st with
      supervisor_response := response,
      next_action := "wait_for_input",
      messages := st.messages ++ [⟨"assistant", response⟩] }
  else
    if st.cv_data.isSome && st.job_data.isSome then
      .ok { st with
        supervisor_response := both_data_text,
        next_action := "wait_for_input",
        ready_for_writer := true,
        messages := st.messages ++ [⟨"assistant", "Detected both CV and job data available"⟩] }
    else
      match llm with
      | .error e => .error e
      | .ok content =>
        .ok { st with
          supervisor_response := content,
          next_action := "wait_for_input",
          messages := st.messages ++ [⟨"assistant", content⟩] }

/-- Node `handle_missing_data`. -/
def handle_missing_data (st : SupervisorState) : SupervisorState :=
  let has_cv := st.cv_data.isSome
  let has_job := st.job_data.isSome
  let response :=
    if !has_cv && !has_job then
      "To tailor your application materials, I need both your CV and the job posting.\n\n" ++
      "Let's start with your CV. Please provide the file path to your CV (e.g., \"C:/Documents/my_cv.pdf\")"
    else if !has_cv then
      "I have the job posting, but I still need your CV to create tailored materials.\n\n" ++
      "Please provide the file path to your CV (e.g., \"C:/Documents/my_cv.pdf\")"
    else
      "I have your CV, but I still need the job posting to tailor your materials.\n\n" ++
      "Please provide either:\n" ++
      "- A URL to the job posting\n" ++
      "- The job description text (you can paste it directly)"
  { st with
    supervisor_response := response,
    next_action := "wait_for_input",
    messages := st.messages ++ [⟨"assistant", response⟩] }

/-! ## Routing and graph execution -/

/-- The `intent_routing` dict lookup of `route_after_intent`, with its
`.get(intent, "generate_response")` default. -/
def intent_routing (intent : String) : String :=
  if intent = "upload_cv" then "invoke_cv"
  else if intent = "provide_job_url" then "invoke_job"
  else if intent = "provide_job_text" then "invoke_job"
  else if intent = "research_company" then "invoke_company_research"
  else if intent = "greeting" then "generate_response"
  else if intent = "help" then "generate_response"
  else if intent = "general_question" then "generate_response"
  else "generate_response"

/-- The conditional edge `route_after_intent`.  Note the clarification guard
uses Python truthiness of `pending_questions` (`and pending_questions`),
while the tailoring-readiness guards use `is not None`. -/
def route_after_intent (st : SupervisorState) : String :=
  if st.current_agent = "writer" then "continue_writer"
  else if st.intent = "answer_clarification" && pyTruthyStr st.pending_questions then
    "handle_clarification"
  else if st.intent = "start_tailoring" then
    (if st.cv_data.isSome && st.job_data.isSome then "handoff_writer"
     else "handle_missing_data")
  else intent_routing st.intent

/-- Bundle of one turn's external-call behaviours: classifier result, tool
outcomes, writer-agent invocation functions, formatting helpers and the JSON
reformatting round-trip. -/
structure ExtCalls where
  classifier : Except String UserIntent
  cv : CvOutcome
  clarify : ClarifyOutcome
  job : Except String String
  jobJsonParses : Bool
  company : Except String String
  tailorStart : List Msg → Except String (List Msg)
  tailorContinue : List Msg → Except String (List Msg)
  generalAnswer : Except String String
  jr : String → Option String
  fmtCv : String → String
  fmtJob : String → String
  fmtCompany : String → String

/-- One `supervisor_app.invoke` over the graph built by
`create_supervisor_graph`: entry node `analyze_intent`, conditional edges
from `route_after_intent`, then the fixed edges of the source —
`invoke_job` → `handle_company_decision` when `next_action` is
`ask_company_research`; `handle_company_decision` → `handoff_writer` when its
`next_action` is `handoff_to_writer`; `invoke_company_research` →
`handoff_writer` unconditionally; everything else → END.  Returns the final
state and the list of executed nodes, or `.error` when the classifier (or the
unguarded general-question LLM call) raises out of the graph. -/
def runGraph (ext : ExtCalls) (st0 : SupervisorState) :
    Except String (SupervisorState × List String) :=
  match ext.classifier with
  | .error e => .error e
  | .ok r =>
    let st1 := analyze_user_intent st0 r
    let route := route_after_intent st1
    if route = "continue_writer" then
      .ok (continue_writer_session ext.jr ext.tailorContinue st1,
           ["analyze_intent", "continue_writer"])
    else if route = "handle_clarification" then
      .ok (handle_cv_clarification ext.fmtCv st1 ext.clarify,
           ["analyze_intent", "handle_clarification"])
    else if route = "invoke_cv" then
      .ok (invoke_cv_agent ext.fmtCv st1 ext.cv,
           ["analyze_intent", "invoke_cv"])
    else if route = "invoke_job" then
      let st2 := invoke_job_agent ext.fmtJob st1 ext.job
      if st2.next_action = "ask_company_research" then
        let st3 := handle_company_research_decision st2 ext.jobJsonParses
        if st3.next_action = "handoff_to_writer" then
          .ok (handoff_to_writer ext.jr ext.tailorStart st3,
               ["analyze_intent", "invoke_job", "handle_company_decision", "handoff_writer"])
        else
          .ok (st3, ["analyze_intent", "invoke_job", "handle_company_decision"])
      else
        .ok (st2, ["analyze_intent", "invoke_job"])
    else if route = "invoke_company_research" then
      let st2 := invoke_company_research ext.fmtCompany st1 ext.company
      .ok (handoff_to_writer ext.jr ext.tailorStart st2,
           ["analyze_intent", "invoke_company_research", "handoff_writer"])
    else if route = "handoff_writer" then
      .ok (handoff_to_writer ext.jr ext.tailorStart st1,
           ["analyze_intent", "handoff_writer"])
    else if route = "handle_missing_data" then
      .ok (handle_missing_data st1, ["analyze_intent", "handle_missing_data"])
    else
      match generate_supervisor_response st1 ext.generalAnswer with
      | .error e => .error e
      | .ok st2 => .ok (st2, ["analyze_intent", "generate_response"])

/-- The executed-node list of a graph run (empty when the run raised). -/
def graphVisited (r : Except String (SupervisorState × List String)) : List String :=
  match r with
  | .ok (_, v) => v
  | .error _ => []

/-- The final state of a graph run, with a fallback for the raising case. -/
def graphState (r : Except String (SupervisorState × List String))
    (d : SupervisorState) : SupervisorState :=
  match r with
  | .ok (s, _) => s
  | .error _ => d

/-! ## Session store (session_manager.py / memory_storage.py)

An `updates` dict is modelled field-by-field: an outer `none` means the key
is absent from the dict, `some v` means the key is present with value `v`
(for `str | None` fields the inner `Option` is the Python `None`).
The typed session always carries every key (`create_session` initialises all
of them), so the Python `key in session` tests are always true here. -/

/-- A `updates` dict restricted to the supervisor-session fields. -/
structure SessionUpdates where
  messages : Option (List Msg) := none
  user_input : Option String := none
  supervisor_response : Option String := none
  current_agent : Option String := none
  next_action : Option String := none
  intent : Option String := none
  cv_data : Option (Option String) := none
  cv_file_path : Option (Option String) := none
  job_data : Option (Option String) := none
  company_data : Option (Option String) := none
  pending_questions : Option (Option String) := none
  clarifications : Option (Option String) := none
  needs_clarification : Option Bool := none
  session_stage : Option String := none
  conversation_count : Option Nat := none
  ready_for_writer : Option Bool := none
  writer_messages : Option (List Msg) := none
deriving Repr

/-- `SessionManager.update_session` (session_manager.py).  `messages` is
appended rather than replaced; for `cv_data`, `job_data` and `company_data`
an incoming `None` is skipped (never clears stored data); every other
present key — including `pending_questions` — is written even when `None`. -/
def SessionManager_update_session (s : SupervisorState)
    (u : SessionUpdates) : SupervisorState where
  messages := s.messages ++ u.messages.getD []
  user_input := u.user_input.getD s.user_input
  supervisor_response := u.supervisor_response.getD s.supervisor_response
  current_agent := u.current_agent.getD s.current_agent
  next_action := u.next_action.getD s.next_action
  intent := u.intent.getD s.intent
  cv_data := match u.cv_data with
    | some (some v) => some v
    | some none => s.cv_data
    | none => s.cv_data
  cv_file_path := u.cv_file_path.getD s.cv_file_path
  job_data := match u.job_data with
    | some (some v) => some v
    | some none => s.job_data
    | none => s.job_data
  company_data := match u.company_data with
    | some (some v) => some v
    | some none => s.company_data
    | none => s.company_data
  pending_questions := u.pending_questions.getD s.pending_questions
  clarifications := u.clarifications.getD s.clarifications
  needs_clarification := u.needs_clarification.getD s.needs_clarification
  session_stage := u.session_stage.getD s.session_stage
  conversation_count := u.conversation_count.getD s.conversation_count
  ready_for_writer := u.ready_for_writer.getD s.ready_for_writer
  writer_messages := u.writer_messages.getD s.writer_messages

/-- `MemorySessionStorage.update_session` (memory_storage.py).  Here EVERY
present key with value `None` is skipped (`if value is None and key in
session: continue`), so all four optional fields are protected, not only the
three data records. -/
def MemorySessionStorage_update_session (s : SupervisorState)
    (u : SessionUpdates) : SupervisorState where
  messages := s.messages ++ u.messages.getD []
  user_input := u.user_input.getD s.user_input
  supervisor_response := u.supervisor_response.getD s.supervisor_response
  current_agent := u.current_agent.getD s.current_agent
  next_action := u.next_action.getD s.next_action
  intent := u.intent.getD s.intent
  cv_data := match u.cv_data with
    | some (some v) => some v
    | _ => s.cv_data
  cv_file_path := match u.cv_file_path with
    | some (some v) => some v
    | _ => s.cv_file_path
  job_data := match u.job_data with
    | some (some v) => some v
    | _ => s.job_data
  company_data := match u.company_data with
    | some (some v) => some v
    | _ => s.company_data
  pending_questions := match u.pending_questions with
    | some (some v) => some v
    | _ => s.pending_questions
  clarifications := match u.clarifications with
    | some (some v) => some v
    | _ => s.clarifications
  needs_clarification := u.needs_clarification.getD s.needs_clarification
  session_stage := u.session_stage.getD s.session_stage
  conversation_count := u.conversation_count.getD s.conversation_count
  ready_for_writer := u.ready_for_writer.getD s.ready_for_writer
  writer_messages := u.writer_messages.getD s.writer_messages

/-- A sequence of `SessionManager.update_session` calls on one session. -/
def apply_updates (s : SupervisorState) (us : List SessionUpdates) : SupervisorState :=
  us.foldl SessionManager_update_session s

/-- The full-state `updates` dict that `send_message` passes to
`update_session` (the graph result contains every state key). -/
def stateToUpdates (st : SupervisorState) : SessionUpdates where
  messages := some st.messages
  user_input := some st.user_input
  supervisor_response := some st.supervisor_response
  current_agent := some st.current_agent
  next_action := some st.next_action
  intent := some st.intent
  cv_data := some st.cv_data
  cv_file_path := some st.cv_file_path
  job_data := some st.job_data
  company_data := some st.company_data
  pending_questions := some st.pending_questions
  clarifications := some st.clarifications
  needs_clarification := some st.needs_clarification
  session_stage := some st.session_stage
  conversation_count := some st.conversation_count
  ready_for_writer := some st.ready_for_writer
  writer_messages := some st.writer_messages

/-! ## The send_message endpoint (api/supervisor.py) -/

/-- The caller-visible part of a `SupervisorSessionResponse`. -/
structure SendResult where
  success : Bool
  assistant_message : String
  next_action : String
deriving DecidableEq, Repr

/-- `send_message` (api/supervisor.py), for an existing session: writes
`user_input` and increments `conversation_count` directly on the stored
session dict (`get_session` returns a reference), invokes the graph, and on
success merges the full result back through
`SessionManager.update_session`; a graph-level exception (classifier or
unguarded general-question LLM) is caught and turned into a
`success = False` apology response without calling `update_session`.
Returns the stored session after the turn and the HTTP-level result. -/
def send_message (ext : ExtCalls) (sess : SupervisorState)
    (userInput : String) : SupervisorState × SendResult :=
  let sess1 := { sess with
    user_input := userInput,
    conversation_count := sess.conversation_count + 1 }
  match runGraph ext sess1 with
  | .error e =>
    (sess1,
     { success := false,
       assistant_message := "I encountered an error: " ++ e ++
         "\n\nPlease try rephrasing your request or type 'help' for guidance.",
       next_action := "wait_for_input" })
  | .ok (result, _) =>
    (SessionManager_update_session sess1 (stateToUpdates result),
     { success := true,
       assistant_message := result.supervisor_response,
       next_action := result.next_action })

/-! ## Handler-invocation enumeration

One constructor per graph node (with the node's external outcomes), used to
state properties of the form "after every handler invocation ...". -/

/-- One handler invocation, as dispatched by the graph. -/
inductive HandlerStep
  | analyze (r : UserIntent)
  | cv (fmtCv : String → String) (out : CvOutcome)
  | clarify (fmtCv : String → String) (out : ClarifyOutcome)
  | job (fmtJob : String → String) (out : Except String String)
  | companyDecision (jobJsonParses : Bool)
  | companyResearch (fmtCompany : String → String) (out : Except String String)
  | handoff (jr : String → Option String) (tailorStart : List Msg → Except String (List Msg))
  | continueWriter (jr : String → Option String) (tailorContinue : List Msg → Except String (List Msg))
  | generate (llm : Except String String)
  | missingData

/-- Run one handler invocation on a state.  A `generate` invocation whose
unguarded LLM call raises produces no state update (the exception escapes the
graph), so the state is returned unchanged. -/
def applyHandler : HandlerStep → SupervisorState → SupervisorState
  | .analyze r, st => analyze_user_intent st r
  | .cv fmtCv out, st => invoke_cv_agent fmtCv st out
  | .clarify fmtCv out, st => handle_cv_clarification fmtCv st out
  | .job fmtJob out, st => invoke_job_agent fmtJob st out
  | .companyDecision b, st => handle_company_research_decision st b
  | .companyResearch fmtCompany out, st => invoke_company_research fmtCompany st out
  | .handoff jr ts, st => handoff_to_writer jr ts st
  | .continueWriter jr tc, st => continue_writer_session jr tc st
  | .generate llm, st =>
    match generate_supervisor_response st llm with
    | .ok st' => st'
    | .error _ => st
  | .missingData, st => handle_missing_data st

/-- The clarification-flag invariant of the spec:
`needs_clarification == (pending_questions is not None)`. -/
def clarInv (st : SupervisorState) : Prop :=
  st.needs_clarification = st.pending_questions.isSome

instance (st : SupervisorState) : Decidable (clarInv st) := by
  unfold clarInv; infer_instance

/-- The one step that can break `clarInv`: a CV extraction that succeeds with
no ambiguities (it sets `needs_clarification := false` without clearing
`pending_questions`). -/
def cvNoAmbiguityStep : HandlerStep → Prop
  | .cv _ (.ok _ questions) => strContains (strLower questions) "no questions" = true
  | _ => False

/-! ## Lemmas about the string primitives -/

theorem isPrefixB_map (f : Char → Char) :
    ∀ p s : List Char, isPrefixB p s = true → isPrefixB (p.map f) (s.map f) = true
  | [], _, _ => rfl
  | _ :: _, [], h => by simp [isPrefixB] at h
  | a :: as, b :: bs, h => by
    simp only [isPrefixB, Bool.and_eq_true, beq_iff_eq] at h
    simp only [List.map_cons, isPrefixB, Bool.and_eq_true, beq_iff_eq]
    exact ⟨by rw [h.1], isPrefixB_map f as bs h.2⟩

theorem isInfixB_map (f : Char → Char) (p : List Char) :
    ∀ s : List Char, isInfixB p s = true → isInfixB (p.map f) (s.map f) = true
  | [], h => by
    cases p with
    | nil => rfl
    | cons a as => simp [isInfixB, isPrefixB] at h
  | b :: bs, h => by
    rw [isInfixB] at h
    rw [List.map_cons, isInfixB]
    rcases Bool.or_eq_true_iff.mp h with h1 | h2
    · have h3 := isPrefixB_map f p (b :: bs) h1
      rw [List.map_cons] at h3
      simp [h3]
    · simp [isInfixB_map f p bs h2]

/-- Lowercasing both sides preserves substring containment; hence a reply
that literally contains one of the (lowercase) completion phrases also
matches the case-insensitive check of the source. -/
theorem strContains_strLower {r p : String} (hp : strLower p = p)
    (h : strContains r p = true) : strContains (strLower r) p = true := by
  unfold strContains at h ⊢
  have hpl : p.toList.map Char.toLower = p.toList := congrArg String.toList hp
  have hr : (strLower r).toList = r.toList.map Char.toLower := rfl
  rw [hr, ← hpl]
  exact isInfixB_map Char.toLower p.toList r.toList h

/-! ## Shared concrete fixtures -/

/-- The fresh session record created by `SessionManager.create_session`
(timestamps are not modelled). -/
def initial_session : SupervisorState where
  messages := []
  user_input := ""
  supervisor_response := ""
  current_agent := "supervisor"
  next_action := "wait_for_input"
  intent := ""
  cv_data := none
  cv_file_path := none
  job_data := none
  company_data := none
  pending_questions := none
  clarifications := none
  needs_clarification := false
  session_stage := "init"
  conversation_count := 0
  ready_for_writer := false
  writer_messages := []

/-- A default external-call bundle for concrete instantiations. -/
def extDefault : ExtCalls where
  classifier := .ok ⟨"general_question", "r"⟩
  cv := .fileNotFound
  clarify := .exn "e"
  job := .error "e"
  jobJsonParses := true
  company := .error "e"
  tailorStart := fun _ => .error "e"
  tailorContinue := fun _ => .error "e"
  generalAnswer := .ok "ok"
  jr := fun _ => none
  fmtCv := fun _ => ""
  fmtJob := fun _ => ""
  fmtCompany := fun _ => ""

/-! ## Claim C1 -/

/-- C1 counterexample externals: a pasted job posting is analyzed
successfully, the user declines company research in the same turn, and the
writer agent responds. -/
def extC1 : ExtCalls := { extDefault with
  classifier := .ok ⟨"provide_job_text", "user pasted a job posting"⟩,
  job := .ok "JOB_REQUIREMENTS_JSON",
  tailorStart := fun _ => .ok [⟨"assistant", "Writer agent reply"⟩] }

/-- C1 counterexample session: fresh session, no CV, user pastes job text
containing none of the affirmative company-research words. -/
def stC1 : SupervisorState := { initial_session with user_input := "here is the job text" }

/-- C1 (counterexample): the claim "`initiate_handoff` is only ever entered
when `cv_record` and `job_record` are both non-null" is FALSE on the code.
On a fresh session with no CV, a pasted-job-text turn whose text contains no
affirmative company-research word reaches `handoff_to_writer` through the
`handle_company_decision` → `handoff_writer` graph edge: the node is entered
(and even completes the hand-off, setting `current_agent = "writer"`) while
`cv_data` is still `None`, because `handoff_to_writer` only refuses when
BOTH formatted data strings are empty. -/
theorem C1_counterexample :
    stC1.cv_data = none ∧
    graphVisited (runGraph extC1 stC1) =
      ["analyze_intent", "invoke_job", "handle_company_decision", "handoff_writer"] ∧
    (graphState (runGraph extC1 stC1) stC1).cv_data = none ∧
    (graphState (runGraph extC1 stC1) stC1).current_agent = "writer" := by
  refine ⟨rfl, by decide, by decide, by decide⟩

/-- C1 (amended): the SECOND half of the claim holds as stated — from any
state with `cv_record` null (in particular one holding only `job_record`)
under supervisor control, intent `start_tailoring` routes to
`handle_missing_data` and the turn never enters `handoff_writer`; moreover
`route_after_intent` can never select `handoff_writer` while `cv_data` is
null.  Only the universal "only ever entered with both records" part fails
(via the company-research-decision edges of the graph). -/
theorem C1_amended (ext : ExtCalls) (st : SupervisorState) (r : UserIntent)
    (hcl : ext.classifier = .ok r) (hr : r.intent = "start_tailoring")
    (hw : st.current_agent ≠ "writer") (hcv : st.cv_data = none) :
    runGraph ext st =
      .ok (handle_missing_data (analyze_user_intent st r),
           ["analyze_intent", "handle_missing_data"]) ∧
    (graphVisited (runGraph ext st)).contains "handoff_writer" = false ∧
    (∀ s : SupervisorState, s.cv_data = none → route_after_intent s ≠ "handoff_writer") := by
  have hroute : route_after_intent (analyze_user_intent st r) = "handle_missing_data" := by
    simp [route_after_intent, analyze_user_intent, hr, hw, hcv]
  have hrun : runGraph ext st =
      .ok (handle_missing_data (analyze_user_intent st r),
           ["analyze_intent", "handle_missing_data"]) := by
    simp [runGraph, hcl, hroute]
  refine ⟨hrun, ?_, ?_⟩
  · rw [hrun]; rfl
  · intro s hs
    simp only [route_after_intent, hs, Option.isSome_none, Bool.false_and, if_false]
    intro h1
    simp only [intent_routing] at h1
    iterate 8 (try (split at h1 <;> try simp_all))

/-- C1 witness externals: a `start_tailoring` turn. -/
def extC1w : ExtCalls := { extDefault with
  classifier := .ok ⟨"start_tailoring", "user asked to start"⟩ }

/-- C1 witness session: only `job_record` set. -/
def stC1w : SupervisorState := { initial_session with
  job_data := some "JOB_REQUIREMENTS_JSON", user_input := "start tailoring" }

/-- Witness for `C1_amended` at a concrete state with only `job_record` set. -/
theorem C1_amended_witness :
    graphVisited (runGraph extC1w stC1w) = ["analyze_intent", "handle_missing_data"] := by
  have h := C1_amended extC1w stC1w ⟨"start_tailoring", "user asked to start"⟩
    rfl rfl (by decide) rfl
  rw [h.1]; rfl

/-! ## Claim C2 -/

/-- One `SessionManager.update_session` call can only make the three record
fields null if they already were: an incoming `None` for
`cv_data`/`job_data`/`company_data` is skipped. -/
theorem update_session_preserves_records (s : SupervisorState) (u : SessionUpdates) :
    ((SessionManager_update_session s u).cv_data = none → s.cv_data = none) ∧
    ((SessionManager_update_session s u).job_data = none → s.job_data = none) ∧
    ((SessionManager_update_session s u).company_data = none → s.company_data = none) := by
  refine ⟨?_, ?_, ?_⟩
  · show (match u.cv_data with
      | some (some v) => some v
      | some none => s.cv_data
      | none => s.cv_data) = none → s.cv_data = none
    rcases u.cv_data with _ | (_ | v) <;> simp
  · show (match u.job_data with
      | some (some v) => some v
      | some none => s.job_data
      | none => s.job_data) = none → s.job_data = none
    rcases u.job_data with _ | (_ | v) <;> simp
  · show (match u.company_data with
      | some (some v) => some v
      | some none => s.company_data
      | none => s.company_data) = none → s.company_data = none
    rcases u.company_data with _ | (_ | v) <;> simp

/-- C2 (confirmed): monotone data accumulation.  For every session and every
sequence of `SessionManager.update_session` calls (the only mutation path of
a stored session short of deletion), once `cv_data`, `job_data` or
`company_data` is non-null it never becomes null again. -/
theorem C2_monotone_records (us : List SessionUpdates) :
    ∀ s : SupervisorState,
      (s.cv_data ≠ none → (apply_updates s us).cv_data ≠ none) ∧
      (s.job_data ≠ none → (apply_updates s us).job_data ≠ none) ∧
      (s.company_data ≠ none → (apply_updates s us).company_data ≠ none) := by
  induction us with
  | nil => exact fun s => ⟨id, id, id⟩
  | cons u us ih =>
    intro s
    have h := ih (SessionManager_update_session s u)
    have hs := update_session_preserves_records s u
    exact ⟨fun hc => h.1 (fun e => hc (hs.1 e)),
           fun hj => h.2.1 (fun e => hj (hs.2.1 e)),
           fun hm => h.2.2 (fun e => hm (hs.2.2 e))⟩

/-- C2 witness session: all three records held. -/
def sC2w : SupervisorState := { initial_session with
  cv_data := some "CV_JSON", job_data := some "JOB_JSON", company_data := some "CO_JSON" }

/-- C2 witness updates: two consecutive merge-updates carrying explicit
`None` for the record fields. -/
def usC2w : List SessionUpdates :=
  [{ cv_data := some none, job_data := some none, company_data := some none },
   { cv_data := some none, supervisor_response := some "r" }]

/-- Witness for `C2_monotone_records` on a concrete session and update list. -/
theorem C2_monotone_records_witness :
    (apply_updates sC2w usC2w).cv_data ≠ none ∧
    (apply_updates sC2w usC2w).job_data ≠ none ∧
    (apply_updates sC2w usC2w).company_data ≠ none := by
  have h := C2_monotone_records usC2w sC2w
  exact ⟨h.1 (by decide), h.2.1 (by decide), h.2.2 (by decide)⟩

/-! ## Claim C3 -/

/-- C3 counterexample session: a clarification question is pending (the
invariant holds), and the user uploads a different CV instead of answering. -/
def stC3 : SupervisorState := { initial_session with
  user_input := "\"/tmp/new_cv.pdf\"",
  intent := "upload_cv",
  pending_questions := some "What is your email?",
  needs_clarification := true,
  session_stage := "collecting_cv" }

/-- C3 (counterexample): `needs_clarification ⇔ pending_questions ≠ None`
does NOT hold after every handler invocation.  When `invoke_cv_agent`
succeeds with no ambiguities while a stale `pending_questions` from an
earlier turn is still stored, it sets `needs_clarification := False` but
never clears `pending_questions`, leaving the two fields inconsistent. -/
theorem C3_counterexample :
    clarInv stC3 ∧
    (invoke_cv_agent (fun _ => "") stC3 (CvOutcome.ok "CV_JSON" "No questions.")).needs_clarification
      = false ∧
    (invoke_cv_agent (fun _ => "") stC3 (CvOutcome.ok "CV_JSON" "No questions.")).pending_questions
      = some "What is your email?" ∧
    ¬ clarInv (invoke_cv_agent (fun _ => "") stC3 (CvOutcome.ok "CV_JSON" "No questions.")) :=
  ⟨by decide, by decide, by decide, by decide⟩

/-- C3 (amended): the invariant `needs_clarification = (pending_questions
is not None)` is preserved by every handler invocation EXCEPT the
no-ambiguity CV-extraction success path: it holds after any handler step
provided that, when the step is a CV extraction succeeding with no
ambiguities, no stale `pending_questions` is stored (that path sets
`needs_clarification := False` without clearing `pending_questions`). -/
theorem C3_amended (st : SupervisorState) (h : HandlerStep) (hInv : clarInv st)
    (hx : cvNoAmbiguityStep h → st.pending_questions = none) :
    clarInv (applyHandler h st) := by
  cases h with
  | analyze r => simpa [applyHandler, analyze_user_intent, clarInv] using hInv
  | cv fmtCv out =>
    cases out with
    | fileNotFound => simpa [applyHandler, invoke_cv_agent, clarInv] using hInv
    | exn e => simpa [applyHandler, invoke_cv_agent, clarInv] using hInv
    | ok cv q =>
      by_cases hq : strContains (strLower q) "no questions" = true
      · have hpq := hx (by simp [cvNoAmbiguityStep, hq])
        simp [applyHandler, invoke_cv_agent, clarInv, hq, hpq]
      · simp [applyHandler, invoke_cv_agent, clarInv, hq]
  | clarify fmtCv out =>
    cases out with
    | ok u => simp [applyHandler, handle_cv_clarification, clarInv]
    | exn e => simpa [applyHandler, handle_cv_clarification, clarInv] using hInv
  | job fmtJob out =>
    have hnp : (invoke_job_agent fmtJob st out).needs_clarification = st.needs_clarification ∧
        (invoke_job_agent fmtJob st out).pending_questions = st.pending_questions := by
      simp only [invoke_job_agent]
      repeat' split
      all_goals simp
    simpa [applyHandler, clarInv, hnp.1, hnp.2] using hInv
  | companyDecision b =>
    have hnp : (handle_company_research_decision st b).needs_clarification = st.needs_clarification ∧
        (handle_company_research_decision st b).pending_questions = st.pending_questions := by
      simp only [handle_company_research_decision]
      repeat' split
      all_goals simp
    simpa [applyHandler, clarInv, hnp.1, hnp.2] using hInv
  | companyResearch fmtCompany out =>
    have hnp : (invoke_company_research fmtCompany st out).needs_clarification = st.needs_clarification ∧
        (invoke_company_research fmtCompany st out).pending_questions = st.pending_questions := by
      simp only [invoke_company_research]
      repeat' split
      all_goals simp
    simpa [applyHandler, clarInv, hnp.1, hnp.2] using hInv
  | handoff jr ts =>
    have hnp : (handoff_to_writer jr ts st).needs_clarification = st.needs_clarification ∧
        (handoff_to_writer jr ts st).pending_questions = st.pending_questions := by
      simp only [handoff_to_writer]
      repeat' split
      all_goals simp
    simpa [applyHandler, clarInv, hnp.1, hnp.2] using hInv
  | continueWriter jr tc =>
    have hnp : (continue_writer_session jr tc st).needs_clarification = st.needs_clarification ∧
        (continue_writer_session jr tc st).pending_questions = st.pending_questions := by
      simp only [continue_writer_session]
      repeat' split
      all_goals simp [cws_error]
    simpa [applyHandler, clarInv, hnp.1, hnp.2] using hInv
  | generate llm =>
    have hnp : ∀ st', generate_supervisor_response st llm = .ok st' →
        st'.needs_clarification = st.needs_clarification ∧
        st'.pending_questions = st.pending_questions := by
      intro st' hst'
      simp only [generate_supervisor_response] at hst'
      repeat' split at hst'
      all_goals (cases hst' <;> exact ⟨rfl, rfl⟩)
    simp only [applyHandler]
    rcases hgen : generate_supervisor_response st llm with e | st'
    · simpa [clarInv] using hInv
    · have h2 := hnp st' hgen
      simpa [clarInv, h2.1, h2.2] using hInv
  | missingData =>
    have hnp : (handle_missing_data st).needs_clarification = st.needs_clarification ∧
        (handle_missing_data st).pending_questions = st.pending_questions := ⟨rfl, rfl⟩
    simpa [applyHandler, clarInv, hnp.1, hnp.2] using hInv

/-- C3 witness session: pending clarification, invariant holds. -/
def stC3w : SupervisorState := { initial_session with
  pending_questions := some "Which degree is most recent?",
  needs_clarification := true,
  session_stage := "collecting_cv" }

/-- Witness for `C3_amended`: a successful clarification merge on a concrete
session with a pending question keeps the invariant. -/
theorem C3_amended_witness :
    clarInv (applyHandler (HandlerStep.clarify (fun _ => "") (ClarifyOutcome.ok "CV2")) stC3w) :=
  C3_amended stC3w (HandlerStep.clarify (fun _ => "") (ClarifyOutcome.ok "CV2"))
    (by decide) (fun hc => hc.elim)

/-! ## Claim C4 -/

/-- Equality of the record/stage/control fields of two session states: the
fields whose preservation "no partial record committed, no stage or control
change" is about (`user_input`, `conversation_count`, `intent`,
`next_action`, `supervisor_response` and the message log are per-turn
bookkeeping and excluded). -/
def dataFieldsEq (a b : SupervisorState) : Prop :=
  a.cv_data = b.cv_data ∧ a.job_data = b.job_data ∧ a.company_data = b.company_data ∧
  a.pending_questions = b.pending_questions ∧ a.needs_clarification = b.needs_clarification ∧
  a.session_stage = b.session_stage ∧ a.current_agent = b.current_agent ∧
  a.ready_for_writer = b.ready_for_writer ∧ a.writer_messages = b.writer_messages

/-- C4 counterexample externals: the classifier answers `upload_cv` and the
CV extractor raises. -/
def extC4 : ExtCalls := { extDefault with
  classifier := .ok ⟨"upload_cv", "user sent a file path"⟩,
  cv := .exn "boom" }

/-- C4 (counterexample): on a turn whose collaborator call raises, the
persisted session is NOT "unchanged beyond logging the error": the turn is
indeed converted into a user-facing apology, but `intent` (set by the
classifier node), `conversation_count` and `next_action` all change and are
persisted, so the literal "no field changed beyond logging the error" is
false. -/
theorem C4_counterexample :
    extC4.cv = CvOutcome.exn "boom" ∧
    (send_message extC4 initial_session "/tmp/cv.pdf").2.assistant_message =
      "I encountered an error processing your CV: boom\n\nPlease try again or provide a different file." ∧
    (send_message extC4 initial_session "/tmp/cv.pdf").1.intent ≠ initial_session.intent ∧
    (send_message extC4 initial_session "/tmp/cv.pdf").1.conversation_count ≠
      initial_session.conversation_count :=
  ⟨rfl, by decide, by decide, by decide⟩

/-- C4 (amended): every external failure is caught and converted into a
user-facing message, and no exception reaches the caller of `send_message`
(`send_message` is total and returns the apology response with
`success = False` when the graph raises).  The collaborator calls inside
handlers are converted at the handler boundary; the classifier (and the
unguarded general-question LLM call) propagates out of the graph and is
converted by `send_message` itself.  In every such failure the record,
stage and control fields are unchanged — but the per-turn bookkeeping
fields (`user_input`, `conversation_count`, `intent`, `next_action`,
`supervisor_response`, message log) do change, which is what the
counterexample exhibits against the claim's literal "no field changed
beyond logging the error". -/
theorem C4_amended (e : String) :
    (∀ (ext : ExtCalls) (sess : SupervisorState) (input : String),
      ext.classifier = .error e →
        (send_message ext sess input).2.success = false ∧
        (send_message ext sess input).2.assistant_message =
          "I encountered an error: " ++ e ++
            "\n\nPlease try rephrasing your request or type 'help' for guidance." ∧
        dataFieldsEq (send_message ext sess input).1 sess) ∧
    (∀ fmtCv st, dataFieldsEq (invoke_cv_agent fmtCv st (.exn e)) st) ∧
    (∀ fmtCv st, dataFieldsEq (handle_cv_clarification fmtCv st (.exn e)) st) ∧
    (∀ fmtJob st, dataFieldsEq (invoke_job_agent fmtJob st (.error e)) st) ∧
    (∀ fmtCo st, dataFieldsEq (invoke_company_research fmtCo st (.error e)) st) ∧
    (∀ jr st, dataFieldsEq (handoff_to_writer jr (fun _ => .error e) st) st) ∧
    (∀ jr st, return_trigger_match st.user_input = false →
      dataFieldsEq (continue_writer_session jr (fun _ => .error e) st) st) := by
  refine ⟨?_, ?_, ?_, ?_, ?_, ?_, ?_⟩
  · intro ext sess input hcl
    have hrun : runGraph ext
        { sess with user_input := input, conversation_count := sess.conversation_count + 1 } =
        .error e := by
      simp [runGraph, hcl]
    refine ⟨?_, ?_, ?_⟩ <;> simp [send_message, hrun, dataFieldsEq]
  · intro fmtCv st; simp [invoke_cv_agent, dataFieldsEq]
  · intro fmtCv st; simp [handle_cv_clarification, dataFieldsEq]
  · intro fmtJob st
    simp only [invoke_job_agent]
    repeat' split
    all_goals simp [dataFieldsEq]
  · intro fmtCo st; simp [invoke_company_research, dataFieldsEq]
  · intro jr st
    simp only [handoff_to_writer]
    repeat' split
    all_goals simp [dataFieldsEq]
  · intro jr st ht
    simp only [continue_writer_session, ht, Bool.false_eq_true, if_false]
    repeat' split
    all_goals simp [cws_error, dataFieldsEq]

/-- C4 witness externals: the classifier raises. -/
def extC4w : ExtCalls := { extDefault with classifier := .error "boom" }

/-- C4 witness session: a writer-controlled session whose tailor call fails. -/
def stC4w : SupervisorState := { initial_session with
  current_agent := "writer",
  user_input := "please regenerate the cover letter",
  writer_messages := [⟨"assistant", "draft"⟩] }

/-- Witness for `C4_amended` at `e = "boom"` with concrete sessions. -/
theorem C4_amended_witness :
    (send_message extC4w initial_session "hello").2.success = false ∧
    dataFieldsEq (send_message extC4w initial_session "hello").1 initial_session ∧
    dataFieldsEq (invoke_cv_agent (fun _ => "") stC4w (.exn "boom")) stC4w ∧
    dataFieldsEq (continue_writer_session (fun _ => none) (fun _ => .error "boom") stC4w) stC4w := by
  have h := C4_amended "boom"
  exact ⟨(h.1 extC4w initial_session "hello" rfl).1,
         (h.1 extC4w initial_session "hello" rfl).2.2,
         h.2.1 (fun _ => "") stC4w,
         h.2.2.2.2.2.2 (fun _ => none) stC4w (by decide)⟩

/-! ## Claim C5 -/

/-- C5 (confirmed): once `current_agent = "writer"`, for every turn whose
user text does not match a return-to-supervisor trigger, the turn is handled
by `continue_writer_session`, and the handler choice is independent of the
classifier's output (`route_after_intent` returns `"continue_writer"` for
EVERY classified intent — the classifier node still runs first, but its
result is not consulted to pick the handler). -/
theorem C5_writer_bypasses_classifier (ext : ExtCalls) (st : SupervisorState)
    (r : UserIntent) (hcl : ext.classifier = .ok r)
    (hw : st.current_agent = "writer")
    (_ht : return_trigger_match st.user_input = false) :
    route_after_intent (analyze_user_intent st r) = "continue_writer" ∧
    runGraph ext st =
      .ok (continue_writer_session ext.jr ext.tailorContinue (analyze_user_intent st r),
           ["analyze_intent", "continue_writer"]) ∧
    (∀ r' : UserIntent, route_after_intent (analyze_user_intent st r') = "continue_writer") := by
  have hroute : ∀ r' : UserIntent,
      route_after_intent (analyze_user_intent st r') = "continue_writer" := by
    intro r'; simp [route_after_intent, analyze_user_intent, hw]
  exact ⟨hroute r, by simp [runGraph, hcl, hroute r], hroute⟩

/-- C5 witness externals: the classifier labels the turn `help`;
the routing must ignore it. -/
def extC5w : ExtCalls := { extDefault with classifier := .ok ⟨"help", "user asked for help"⟩ }

/-- C5 witness session: writer-controlled, non-trigger user text. -/
def stC5w : SupervisorState := { initial_session with
  current_agent := "writer",
  session_stage := "writer_session",
  user_input := "can you improve the summary section",
  writer_messages := [⟨"assistant", "draft"⟩] }

/-- Witness for `C5_writer_bypasses_classifier` on a concrete writer turn. -/
theorem C5_writer_bypasses_classifier_witness :
    graphVisited (runGraph extC5w stC5w) = ["analyze_intent", "continue_writer"] := by
  have h := C5_writer_bypasses_classifier extC5w stC5w ⟨"help", "user asked for help"⟩
    rfl rfl (by decide)
  rw [h.2.1]; rfl

/-! ## Claim C7 -/

/-- Non-empty formatted data means the underlying field was held (non-null
and not all-whitespace, hence Python-truthy). -/
theorem pyTruthyStr_of_format_ne (jr : String → Option String) (o : Option String)
    (h : format_data jr o ≠ "") : pyTruthyStr o = true := by
  cases o with
  | none => exact absurd rfl h
  | some s =>
    by_cases hb : pyStrBlank s = true
    · exact absurd (by simp [format_data, hb]) h
    · have hs : s ≠ "" := fun e => hb (by rw [e]; rfl)
      simp [pyTruthyStr, hs]

/-- C7 (confirmed): whenever the stored `writer_messages` lacks a
system-context entry and `cv_data` or `job_data` still formats to non-empty
text, the transcript `continue_writer_session` submits to the writer agent
contains the system context rebuilt deterministically from the held
`cv_data`/`job_data`/`company_data`, placed before the appended new user
turn — and, as the claim's source notes, it is in fact inserted TWICE on
this path (source lines 661 and 664). -/
theorem C7_context_reconstruction (jr : String → Option String) (st : SupervisorState)
    (hns : has_system_context_entry st.writer_messages = false)
    (hne : format_data jr st.cv_data ≠ "" ∨ format_data jr st.job_data ≠ "") :
    cws_transcript jr st =
      some (⟨"system", build_system_context (format_data jr st.cv_data)
              (format_data jr st.job_data) (format_data jr st.company_data)⟩ ::
            ⟨"system", build_system_context (format_data jr st.cv_data)
              (format_data jr st.job_data) (format_data jr st.company_data)⟩ ::
            st.writer_messages ++ [⟨"user", st.user_input⟩]) := by
  have htruthy : (pyTruthyStr st.cv_data || pyTruthyStr st.job_data) = true := by
    rcases hne with h | h
    · simp [pyTruthyStr_of_format_ne jr _ h]
    · simp [pyTruthyStr_of_format_ne jr _ h]
  have hcond : (decide (format_data jr st.cv_data = "") &&
      decide (format_data jr st.job_data = "")) = false := by
    rcases hne with h | h <;> simp [h]
  simp [cws_transcript, hns, htruthy, hcond]

/-- C7 witness session: rehydrated writer session whose stored transcript
lost its system entry while `cv_data` is still held. -/
def stC7w : SupervisorState := { initial_session with
  current_agent := "writer",
  session_stage := "writer_session",
  cv_data := some "CVJSON",
  user_input := "continue",
  writer_messages := [⟨"assistant", "hi"⟩] }

/-- Witness for `C7_context_reconstruction` on a concrete rehydrated session. -/
theorem C7_context_reconstruction_witness :
    cws_transcript (fun _ => none) stC7w =
      some (⟨"system", build_system_context "CVJSON" "" ""⟩ ::
            ⟨"system", build_system_context "CVJSON" "" ""⟩ ::
            [⟨"assistant", "hi"⟩, ⟨"user", "continue"⟩]) := by
  have h := C7_context_reconstruction (fun _ => none) stC7w (by decide)
    (Or.inl (by decide))
  rw [h]; rfl

/-! ## Claim C6 -/

/-- C6 counterexample externals: a `start_tailoring` turn with both records
held and a successful writer invocation. -/
def extC6 : ExtCalls := { extDefault with
  classifier := .ok ⟨"start_tailoring", "user is ready"⟩,
  jr := fun s => some s,
  tailorStart := fun _ => .ok [⟨"system", "ctx"⟩, ⟨"assistant", "Here is my analysis"⟩] }

/-- C6 counterexample session: both records held, stage still
`collecting_job`. -/
def stC6 : SupervisorState := { initial_session with
  cv_data := some "CV_JSON",
  job_data := some "JOB_JSON",
  session_stage := "collecting_job",
  user_input := "let us start" }

/-- C6 (counterexample): when `handoff_to_writer` succeeds via the direct
`start_tailoring` route, the resulting state does NOT have
`stage = writer_session` or `ready_for_tailoring = true`: the node itself
sets only `current_agent`, `writer_messages`, the response and
`next_action`; the stage/readiness flags are set by the company-decision
nodes, which this route never visits.  The claim's success postcondition is
therefore false on this path. -/
theorem C6_counterexample :
    graphVisited (runGraph extC6 stC6) = ["analyze_intent", "handoff_writer"] ∧
    (graphState (runGraph extC6 stC6) stC6).current_agent = "writer" ∧
    (graphState (runGraph extC6 stC6) stC6).writer_messages =
      [⟨"system", "ctx"⟩, ⟨"assistant", "Here is my analysis"⟩] ∧
    (graphState (runGraph extC6 stC6) stC6).session_stage = "collecting_job" ∧
    (graphState (runGraph extC6 stC6) stC6).ready_for_writer = false :=
  ⟨by decide, by decide, by decide, by decide, by decide⟩

/-- C6 (amended): on a successful writer invocation `handoff_to_writer`
stores the returned transcript in `writer_messages`, sets
`current_agent = "writer"` and `next_action = "writer_active"`, but leaves
`session_stage` and `ready_for_writer` unchanged (those are set to
`"writer_session"`/`true` beforehand only on the company-research-decision
paths); on a failing invocation `current_agent` is unchanged — the session
does not pass to the writer. -/
theorem C6_amended (jr : String → Option String)
    (ts : List Msg → Except String (List Msg)) (st : SupervisorState)
    (msgs : List Msg)
    (hok : ts (handoff_start_transcript jr st) = .ok msgs)
    (hne : format_data jr st.cv_data ≠ "" ∨ format_data jr st.job_data ≠ "") :
    (handoff_to_writer jr ts st).current_agent = "writer" ∧
    (handoff_to_writer jr ts st).writer_messages = msgs ∧
    (handoff_to_writer jr ts st).supervisor_response = lastContent msgs ∧
    (handoff_to_writer jr ts st).next_action = "writer_active" ∧
    (handoff_to_writer jr ts st).session_stage = st.session_stage ∧
    (handoff_to_writer jr ts st).ready_for_writer = st.ready_for_writer ∧
    (∀ (e : String) (st' : SupervisorState),
      (handoff_to_writer jr (fun _ => .error e) st').current_agent = st'.current_agent) ∧
    (∀ (st' : SupervisorState) (b : Bool),
      research_word_match st'.user_input = false →
        (handle_company_research_decision st' b).session_stage = "writer_session" ∧
        (handle_company_research_decision st' b).ready_for_writer = true ∧
        (handle_company_research_decision st' b).next_action = "handoff_to_writer") := by
  have hcond : (decide (format_data jr st.cv_data = "") &&
      decide (format_data jr st.job_data = "")) = false := by
    rcases hne with h | h <;> simp [h]
  refine ⟨?_, ?_, ?_, ?_, ?_, ?_, ?_, ?_⟩
  iterate 6 · simp [handoff_to_writer, hcond, hok]
  · intro e st'
    simp only [handoff_to_writer]
    repeat' split
    all_goals simp
  · intro st' b hb
    simp [handle_company_research_decision, hb]

/-- Witness for `C6_amended` on the concrete C6 fixtures. -/
theorem C6_amended_witness :
    (handoff_to_writer (fun s => some s)
      (fun _ => .ok [⟨"system", "ctx"⟩, ⟨"assistant", "Here is my analysis"⟩]) stC6).current_agent
      = "writer" ∧
    (handoff_to_writer (fun s => some s)
      (fun _ => .ok [⟨"system", "ctx"⟩, ⟨"assistant", "Here is my analysis"⟩]) stC6).session_stage
      = "collecting_job" := by
  have h := C6_amended (fun s => some s)
    (fun _ => .ok [⟨"system", "ctx"⟩, ⟨"assistant", "Here is my analysis"⟩]) stC6
    [⟨"system", "ctx"⟩, ⟨"assistant", "Here is my analysis"⟩] rfl (Or.inl (by decide))
  exact ⟨h.1, h.2.2.2.2.1⟩

/-! ## Claim C8 -/

/-- C8 counterexample session: writer-controlled session whose stored
transcript still has its system-context entry. -/
def stC8 : SupervisorState := { initial_session with
  current_agent := "writer",
  session_stage := "writer_session",
  user_input := "finish up please",
  writer_messages := [⟨"system", "CV Data (ResumeInfo JSON):\nX"⟩] }

/-- C8 (counterexample): the completion check is on the LOWERCASED reply, so
the claim's second half ("replies containing none of these phrases leave the
stage unchanged") is false as stated: the reply "ALL DONE" contains none of
the three phrases as a literal substring, yet the turn sets
`stage = "complete"` (and appends the closing note). -/
theorem C8_counterexample :
    strContains "ALL DONE" "pdf generated successfully" = false ∧
    strContains "ALL DONE" "application complete" = false ∧
    strContains "ALL DONE" "all done" = false ∧
    stC8.session_stage = "writer_session" ∧
    (continue_writer_session (fun _ => none)
      (fun _ => .ok [⟨"assistant", "ALL DONE"⟩]) stC8).session_stage = "complete" ∧
    (continue_writer_session (fun _ => none)
      (fun _ => .ok [⟨"assistant", "ALL DONE"⟩]) stC8).supervisor_response =
      "ALL DONE" ++ completion_note :=
  ⟨by decide, by decide, by decide, by decide, by decide, by decide⟩

/-- C8 (amended): the completion check is case-insensitive — on a
writer-continuation turn (no return trigger, transcript built, writer call
succeeds), the turn sets `stage = "complete"` and appends the closing note
exactly when the LOWERCASED reply contains one of the completion phrases,
and otherwise leaves the stage unchanged and the reply unmodified.  A reply
literally containing one of the (lowercase) phrases still matches, so the
claim's first half stands; only its "contains none of these phrases"
direction had to be weakened to the lowercased reading. -/
theorem C8_amended (jr : String → Option String)
    (tc : List Msg → Except String (List Msg)) (st : SupervisorState)
    (msgs : List Msg) (t : List Msg)
    (ht : return_trigger_match st.user_input = false)
    (htr : cws_transcript jr st = some t)
    (hok : tc t = .ok msgs) :
    (done_keyword_match (lastContent msgs) = true →
      (continue_writer_session jr tc st).session_stage = "complete" ∧
      (continue_writer_session jr tc st).supervisor_response =
        lastContent msgs ++ completion_note) ∧
    (done_keyword_match (lastContent msgs) = false →
      (continue_writer_session jr tc st).session_stage = st.session_stage ∧
      (continue_writer_session jr tc st).supervisor_response = lastContent msgs) ∧
    (∀ p ∈ (["pdf generated successfully", "application complete", "all done"] : List String),
      strContains (lastContent msgs) p = true →
        done_keyword_match (lastContent msgs) = true) := by
  refine ⟨?_, ?_, ?_⟩
  · intro hd
    simp [continue_writer_session, ht, htr, hok, hd]
  · intro hd
    simp [continue_writer_session, ht, htr, hok, hd]
  · intro p hp hc
    simp only [List.mem_cons, List.not_mem_nil, or_false] at hp
    have hlow : strLower p = p := by
      rcases hp with h | h | h <;> (subst h; decide)
    have hcl := strContains_strLower hlow hc
    simp only [done_keyword_match, List.any_eq_true]
    exact ⟨p, by simpa using hp, hcl⟩

/-- Witness for `C8_amended`: a concrete completing turn. -/
theorem C8_amended_witness :
    (continue_writer_session (fun _ => none)
      (fun _ => .ok [⟨"assistant", "The PDF generated successfully."⟩]) stC8).session_stage
      = "complete" ∧
    (continue_writer_session (fun _ => none)
      (fun _ => .ok [⟨"assistant", "The PDF generated successfully."⟩]) stC8).supervisor_response
      = "The PDF generated successfully." ++ completion_note := by
  have h := C8_amended (fun _ => none)
    (fun _ => .ok [⟨"assistant", "The PDF generated successfully."⟩]) stC8
    [⟨"assistant", "The PDF generated successfully."⟩]
    (stC8.writer_messages ++ [⟨"user", stC8.user_input⟩])
    (by decide) (by decide) rfl
  exact h.1 (by decide)

/-! ## Claim C9 -/

/-- C9 counterexample session: a clarification question is stored. -/
def sC9 : SupervisorState := { initial_session with pending_questions := some "Q?" }

/-- C9 counterexample update: an updates dict carrying `pending_questions = None`
(exactly what `handle_cv_clarification` returns on success). -/
def uC9 : SessionUpdates := { pending_questions := some none, needs_clarification := some false }

/-- C9 (counterexample): `SessionManager.update_session` does NOT protect
"every session field" from null clobbering: an incoming
`pending_questions = None` overwrites a stored non-null value (only
`cv_data`, `job_data` and `company_data` are protected).  The supervisor
relies on this: clearing a pending clarification works only because the
field is clobberable. -/
theorem C9_counterexample :
    sC9.pending_questions = some "Q?" ∧
    uC9.pending_questions = some none ∧
    (SessionManager_update_session sC9 uC9).pending_questions = none :=
  ⟨rfl, rfl, rfl⟩

/-- C9 (amended): the null-clobber protection of
`SessionManager.update_session` covers exactly the three record fields
`cv_data`, `job_data`, `company_data`; the storage-layer
`MemorySessionStorage.update_session` (not used by the supervisor
session path) protects every nullable field, including
`pending_questions`, `cv_file_path` and `clarifications`. -/
theorem C9_amended (s : SupervisorState) (u : SessionUpdates) :
    (u.cv_data = some none →
      (SessionManager_update_session s u).cv_data = s.cv_data) ∧
    (u.job_data = some none →
      (SessionManager_update_session s u).job_data = s.job_data) ∧
    (u.company_data = some none →
      (SessionManager_update_session s u).company_data = s.company_data) ∧
    (u.cv_data = some none →
      (MemorySessionStorage_update_session s u).cv_data = s.cv_data) ∧
    (u.pending_questions = some none →
      (MemorySessionStorage_update_session s u).pending_questions = s.pending_questions) ∧
    (u.cv_file_path = some none →
      (MemorySessionStorage_update_session s u).cv_file_path = s.cv_file_path) ∧
    (u.clarifications = some none →
      (MemorySessionStorage_update_session s u).clarifications = s.clarifications) := by
  refine ⟨?_, ?_, ?_, ?_, ?_, ?_, ?_⟩ <;>
    · intro h
      simp [SessionManager_update_session, MemorySessionStorage_update_session, h]

/-- Witness for `C9_amended` on the concrete C9 fixtures. -/
theorem C9_amended_witness :
    (SessionManager_update_session sC9
      { cv_data := some none, job_data := some none }).cv_data = sC9.cv_data ∧
    (MemorySessionStorage_update_session sC9 uC9).pending_questions = some "Q?" := by
  have h1 := C9_amended sC9 { cv_data := some none, job_data := some none }
  have h2 := C9_amended sC9 uC9
  exact ⟨h1.1 rfl, (h2.2.2.2.2.1 rfl).trans rfl⟩

/-! ## Claim C10 -/

/-- C10 (confirmed): the return-to-supervisor check is case-insensitive
substring containment on the user text (`return_trigger_match`), and a
matching turn resets `current_agent = "supervisor"`,
`session_stage = "init"`, `ready_for_writer = false` and
`writer_messages = []` WITHOUT invoking the writer agent: the result is
identical for every writer-invocation function and JSON round-trip (the
handler returns before either is consulted). -/
theorem C10_trigger_reset (jr jr' : String → Option String)
    (tc tc' : List Msg → Except String (List Msg)) (st : SupervisorState)
    (ht : return_trigger_match st.user_input = true) :
    continue_writer_session jr tc st = continue_writer_session jr' tc' st ∧
    (continue_writer_session jr tc st).current_agent = "supervisor" ∧
    (continue_writer_session jr tc st).session_stage = "init" ∧
    (continue_writer_session jr tc st).ready_for_writer = false ∧
    (continue_writer_session jr tc st).writer_messages = [] := by
  refine ⟨?_, ?_, ?_, ?_, ?_⟩ <;> simp [continue_writer_session, ht]

/-- C10 witness session: the lowercased text contains "start over" inside a
longer, negating sentence. -/
def stC10w : SupervisorState := { initial_session with
  current_agent := "writer",
  session_stage := "writer_session",
  ready_for_writer := true,
  user_input := "Whatever you do, please do NOT Start Over",
  writer_messages := [⟨"assistant", "draft"⟩] }

/-- Witness for `C10_trigger_reset`: the negated sentence still triggers the
reset, independently of the writer-invocation function. -/
theorem C10_trigger_reset_witness :
    continue_writer_session (fun _ => none) (fun _ => .error "x") stC10w =
      continue_writer_session (fun s => some s) (fun t => .ok t) stC10w ∧
    (continue_writer_session (fun _ => none) (fun _ => .error "x") stC10w).current_agent
      = "supervisor" ∧
    (continue_writer_session (fun _ => none) (fun _ => .error "x") stC10w).writer_messages
      = [] := by
  have h := C10_trigger_reset (fun _ => none) (fun s => some s)
    (fun _ => .error "x") (fun t => .ok t) stC10w (by decide)
  exact ⟨h.1, h.2.1, h.2.2.2.2⟩
